import Mathlib

/-!
Verification of the NES repository's activation utilities, velocity models and
collocation-point samplers against their specification.

The Python source is shallowly embedded: strings are Lean `String`s restricted
to the ASCII fragment actually used by the library (so Python `str.isdigit`
becomes a decimal-digit check), floats are modelled by `ℝ`, numpy arrays of
points by `List (List ℝ)` (a list of rows), and objects with lazily populated
attributes by explicit state records threaded through the calls.
-/

/-! ## Python string primitives used by `baseLayers.py` -/

/-- Models Python `str.split('-')`: splits at every dash, keeping empty chunks.
Auxiliary recursion carrying the reversed current chunk. -/
def splitDashAux : List Char → List Char → List (List Char)
  | [], acc => [acc.reverse]
  | c :: rest, acc =>
      if c = '-' then acc.reverse :: splitDashAux rest []
      else splitDashAux rest (c :: acc)

/-- Models Python `act.split('-')` from `baseLayers.py`. -/
def pySplitDash (s : String) : List String :=
  (splitDashAux s.data []).map List.asString

/-- Decimal digit test on a character (ASCII `'0'`–`'9'`). -/
def isDigitB (c : Char) : Bool := 48 ≤ c.toNat && c.toNat ≤ 57

/-- Models Python `str.isdigit()` on the ASCII fragment: nonempty and all
characters decimal digits. -/
def pyIsdigit (cs : List Char) : Bool := !cs.isEmpty && cs.all isDigitB

/-- Numeric value of a decimal digit string; models Python `float(s)` on the
strings accepted by `pyIsdigit` (those denote nonnegative integers). -/
def digitsVal (cs : List Char) : ℕ := cs.foldl (fun acc c => 10 * acc + (c.toNat - 48)) 0

/-- Models the Python substring test `needle in haystack`: `sub` is a
contiguous substring of the second argument. -/
def listContainsSub (nee : List Char) : List Char → Bool
  | [] => nee.isEmpty
  | c :: t => nee.isPrefixOf (c :: t) || listContainsSub nee t

/-! ## Activation registry (`baseLayers.py`, `ACTS`) -/

/-- Keys of the `ACTS` dictionary, in source order. -/
def ACTS_keys : List String :=
  ["tanh", "atan", "sigmoid", "softplus", "relu", "elu", "exp",
   "linear", "gauss", "swish", "laplace"]

/-- Logistic sigmoid `1 / (1 + e^(-x))`, models `tf.math.sigmoid`. -/
noncomputable def tfSigmoid (x : ℝ) : ℝ := 1 / (1 + Real.exp (-x))

/-- Exponential linear unit, models `tf.nn.elu`. -/
noncomputable def tfElu (x : ℝ) : ℝ := if x < 0 then Real.exp x - 1 else x

/-- The function stored in `ACTS` under a given name (the value assigned to a
name outside the registry is irrelevant: every lookup in the source is guarded). -/
noncomputable def ACTS_fun (name : String) : ℝ → ℝ :=
  if name = "tanh" then Real.tanh
  else if name = "atan" then Real.arctan
  else if name = "sigmoid" then tfSigmoid
  else if name = "softplus" then fun z => Real.log (1 + Real.exp z)
  else if name = "relu" then fun z => max 0 z
  else if name = "elu" then tfElu
  else if name = "exp" then Real.exp
  else if name = "linear" then fun z => |z|
  else if name = "gauss" then fun z => Real.exp (-z ^ 2)
  else if name = "swish" then fun z => z * tfSigmoid z
  else if name = "laplace" then fun z => Real.exp (-|z|)
  else id

/-! ## AdaptiveActivation (`baseLayers.py`, lines 26–58) -/

/-- State of a constructed `AdaptiveActivation` layer: the adaptivity flag, the
chosen registry function (by name), the fixed degree `n`, and the trainable
scalar weight `a` (present exactly when the layer is adaptive; mutated later by
the optimizer, initialized to `1.0` by `add_weight(initializer='ones')`). -/
structure AdaptiveActivation where
  adapt : Bool
  actName : String
  n : ℝ
  a : Option ℝ

/-- Models `AdaptiveActivation.__init__` as a fallible constructor:
`assert len(parts) == 3` raises `AssertionError`, `ACTS[parts[1]]` raises
`KeyError` for an unregistered name, `float(parts[-1])` is guarded by
`parts[-1].isdigit()`, and `add_weight` installs `a = 1.0` when adaptive. -/
noncomputable def AdaptiveActivation.make (act : String) : Except String AdaptiveActivation :=
  let parts := pySplitDash act
  if parts.length = 3 then
    if (parts[1]!) ∈ ACTS_keys then
      let ad := listContainsSub "ad".data (parts[0]!).data
      Except.ok
        { adapt := ad
          actName := parts[1]!
          n := if pyIsdigit (parts[2]!).data then (digitsVal (parts[2]!).data : ℝ) else 1.0
          a := if ad then some 1.0 else none }
    else Except.error "KeyError"
  else Except.error "AssertionError"

/-- Models `AdaptiveActivation.call`: `f(n * a * X)` when adaptive, else
`f(n * X)`, elementwise (stated here for one scalar entry of the tensor). -/
noncomputable def AdaptiveActivation.call (A : AdaptiveActivation) (X : ℝ) : ℝ :=
  if A.adapt then ACTS_fun A.actName (A.n * A.a.getD 1 * X)
  else ACTS_fun A.actName (A.n * X)

/-- Number of trainable weights owned by the layer. -/
def AdaptiveActivation.numWeights (A : AdaptiveActivation) : ℕ :=
  match A.a with
  | some _ => 1
  | none => 0

/-! ## Activation dispatcher (`baseLayers.py`, lines 61–79) -/

/-- Possible results of the `Activation` dispatcher. -/
inductive ActivationResult where
  | registry (f : ℝ → ℝ)
  | passthrough (s : String)
  | adaptive (A : AdaptiveActivation)

/-- Models the `Activation` function: a dash-free specifier is looked up in the
registry (falling back to returning the raw string), anything containing a dash
is handed to the `AdaptiveActivation` constructor. -/
noncomputable def Activation (act : String) : Except String ActivationResult :=
  let parts := pySplitDash act
  if parts.length = 1 then
    if act ∈ ACTS_keys then Except.ok (ActivationResult.registry (ACTS_fun act))
    else Except.ok (ActivationResult.passthrough act)
  else (AdaptiveActivation.make act).map ActivationResult.adaptive

/-! discharged below: theorems for claims C1, C4, C5, C6 -/

/-! ## Claim C5 -/

/-- C5: `AdaptiveActivation` construction from a specifier string `s` fails if
and only if `s` does not split on dashes into exactly three parts, or it does
but the middle part is not a key of the activation registry; in every other
case construction succeeds. -/
theorem C5_make_error_iff (s : String) :
    (∃ e, AdaptiveActivation.make s = Except.error e) ↔
      ((pySplitDash s).length ≠ 3 ∨ (pySplitDash s)[1]! ∉ ACTS_keys) := by
  unfold AdaptiveActivation.make
  by_cases h3 : (pySplitDash s).length = 3
  · by_cases hk : (pySplitDash s)[1]! ∈ ACTS_keys
    · simp [h3, hk]
    · simp [h3, hk]
  · simp [h3]

/-! ## Claim C4 -/

/-- C4: a successfully constructed `AdaptiveActivation` is adaptive exactly
when the first specifier part contains the substring `ad`; when adaptive it
owns exactly one trainable scalar weight initialized to `1.0` and evaluates to
`f(n * a * X)` for the current weight value `a`; when not adaptive it owns zero
trainable weights and evaluates to `f(n * X)`. -/
theorem C4_adapt_weight_and_call (s : String) (A : AdaptiveActivation)
    (hA : AdaptiveActivation.make s = Except.ok A) :
    (A.adapt = listContainsSub "ad".data ((pySplitDash s)[0]!).data) ∧
    (A.adapt = true → A.a = some 1 ∧ A.numWeights = 1 ∧
      ∀ w X, AdaptiveActivation.call { A with a := some w } X
        = ACTS_fun A.actName (A.n * w * X)) ∧
    (A.adapt = false → A.a = none ∧ A.numWeights = 0 ∧
      ∀ X, A.call X = ACTS_fun A.actName (A.n * X)) := by
  unfold AdaptiveActivation.make at hA
  by_cases h3 : (pySplitDash s).length = 3
  · by_cases hk : (pySplitDash s)[1]! ∈ ACTS_keys
    · simp only [h3, hk, if_true, if_pos] at hA
      rw [Except.ok.injEq] at hA
      subst hA
      refine ⟨rfl, fun had => ?_, fun hnad => ?_⟩
      · simp only [had] at *
        refine ⟨by simp [had]; norm_num, by simp [AdaptiveActivation.numWeights, had], ?_⟩
        intro w X
        simp [AdaptiveActivation.call, had]
      · simp only at hnad
        refine ⟨by simp [hnad], by simp [AdaptiveActivation.numWeights, hnad], ?_⟩
        intro X
        simp [AdaptiveActivation.call, hnad]
    · simp [h3, hk] at hA
  · simp [h3] at hA

/-- Layer built from the specifier `ad-gauss-1` (adapt marker present). -/
noncomputable def adGauss1 : AdaptiveActivation :=
  match AdaptiveActivation.make "ad-gauss-1" with
  | Except.ok A => A
  | Except.error _ => { adapt := false, actName := "", n := 1, a := none }

/-- Layer built from the specifier `-gauss-1` (adapt marker absent). -/
noncomputable def noAdGauss1 : AdaptiveActivation :=
  match AdaptiveActivation.make "-gauss-1" with
  | Except.ok A => A
  | Except.error _ => { adapt := false, actName := "", n := 1, a := none }

/-- C4 witness: the layer from `ad-gauss-1` owns one weight initialized to
`1.0`, the layer from `-gauss-1` owns none and evaluates as `gauss(n * x)`. -/
theorem C4_witness :
    adGauss1.a = some 1 ∧ adGauss1.numWeights = 1 ∧
    AdaptiveActivation.call { adGauss1 with a := some 2 } 3
      = ACTS_fun adGauss1.actName (adGauss1.n * 2 * 3) ∧
    noAdGauss1.a = none ∧ noAdGauss1.numWeights = 0 ∧
    noAdGauss1.call 3 = ACTS_fun noAdGauss1.actName (noAdGauss1.n * 3) := by
  have h1 := C4_adapt_weight_and_call "ad-gauss-1" adGauss1 rfl
  have h2 := C4_adapt_weight_and_call "-gauss-1" noAdGauss1 rfl
  obtain ⟨-, ha, -⟩ := h1
  obtain ⟨-, -, hb⟩ := h2
  obtain ⟨w1, w2, w3⟩ := ha rfl
  obtain ⟨v1, v2, v3⟩ := hb rfl
  exact ⟨w1, w2, w3 2 3, v1, v2, v3 3⟩

/-! ## Claim C1 -/

/-- Layer built from the specifier `ad-gauss-1.5`. -/
noncomputable def adGauss15 : AdaptiveActivation :=
  match AdaptiveActivation.make "ad-gauss-1.5" with
  | Except.ok A => A
  | Except.error _ => { adapt := false, actName := "", n := 1, a := none }

/-- Layer built from the specifier `ad-gauss-2`. -/
noncomputable def adGauss2 : AdaptiveActivation :=
  match AdaptiveActivation.make "ad-gauss-2" with
  | Except.ok A => A
  | Except.error _ => { adapt := false, actName := "", n := 1, a := none }

/-- C1 counterexample: the degree part `1.5` is floating-point numeric text,
yet construction from `ad-gauss-1.5` sets the degree `n` to `1.0`, not `1.5`
(Python `str.isdigit` rejects the decimal point, so the fallback fires). -/
theorem C1_counterexample :
    (AdaptiveActivation.make "ad-gauss-1.5").map AdaptiveActivation.n
        = Except.ok (1.0 : ℝ) ∧
    (AdaptiveActivation.make "ad-gauss-1.5").map AdaptiveActivation.n
        ≠ Except.ok (1.5 : ℝ) := by
  refine ⟨rfl, ?_⟩
  rw [show (AdaptiveActivation.make "ad-gauss-1.5").map AdaptiveActivation.n
        = Except.ok (1.0 : ℝ) from rfl]
  intro h
  rw [Except.ok.injEq] at h
  norm_num at h

/-- C1 amended: the fixed degree `n` equals the numeric value of the degree
part when that part is a nonempty string of decimal digits (Python
`str.isdigit`), and defaults to `1.0` for every other degree text — including
floating-point text such as `1.5`, which is not all digits. -/
theorem C1_degree_parsing (s : String) (A : AdaptiveActivation)
    (hA : AdaptiveActivation.make s = Except.ok A) :
    (pyIsdigit ((pySplitDash s)[2]!).data = true →
      A.n = (digitsVal ((pySplitDash s)[2]!).data : ℝ)) ∧
    (pyIsdigit ((pySplitDash s)[2]!).data = false → A.n = 1.0) := by
  unfold AdaptiveActivation.make at hA
  by_cases h3 : (pySplitDash s).length = 3
  · by_cases hk : (pySplitDash s)[1]! ∈ ACTS_keys
    · simp only [h3, hk, if_true, if_pos] at hA
      rw [Except.ok.injEq] at hA
      subst hA
      constructor
      · intro hd
        simp [hd]
      · intro hd
        simp [hd]
    · simp [h3, hk] at hA
  · simp [h3] at hA

/-- C1 witness: `ad-gauss-2` has an all-digits degree part and yields `n = 2`;
`ad-gauss-1.5` has a non-digits degree part and yields `n = 1.0`. -/
theorem C1_witness :
    adGauss2.n = ((2 : ℕ) : ℝ) ∧ adGauss15.n = 1.0 := by
  have h1 := C1_degree_parsing "ad-gauss-2" adGauss2 rfl
  have h2 := C1_degree_parsing "ad-gauss-1.5" adGauss15 rfl
  exact ⟨h1.1 rfl, h2.2 rfl⟩

/-! ## Claim C6 -/

/-- C6 counterexample: `x-y` contains a dash, yet the dispatcher does not
return an `AdaptiveActivation` instance — the constructor's three-part
assertion fails and the error propagates out of `Activation`. -/
theorem C6_counterexample :
    ('-' ∈ "x-y".data) ∧ Activation "x-y" = Except.error "AssertionError" :=
  ⟨by decide, rfl⟩

/-- C6 amended: a dash-free specifier returns the registry function when the
name is registered and otherwise the input string itself unchanged; a
specifier containing at least one dash is handed to the `AdaptiveActivation`
constructor, and yields an instance exactly when that construction succeeds
(three dash-separated parts, registered middle name — the adapt marker being
absent is fine); otherwise the constructor's error propagates. -/
theorem C6_dispatch (s : String) :
    ((pySplitDash s).length = 1 →
      (s ∈ ACTS_keys → Activation s = Except.ok (ActivationResult.registry (ACTS_fun s))) ∧
      (s ∉ ACTS_keys → Activation s = Except.ok (ActivationResult.passthrough s))) ∧
    ((pySplitDash s).length ≠ 1 →
      Activation s = (AdaptiveActivation.make s).map ActivationResult.adaptive ∧
      ((pySplitDash s).length = 3 → (pySplitDash s)[1]! ∈ ACTS_keys →
        ∃ A, AdaptiveActivation.make s = Except.ok A ∧
          Activation s = Except.ok (ActivationResult.adaptive A))) := by
  constructor
  · intro h1
    constructor
    · intro hmem
      simp [Activation, h1, hmem]
    · intro hmem
      simp [Activation, h1, hmem]
  · intro h1
    have hact : Activation s = (AdaptiveActivation.make s).map ActivationResult.adaptive := by
      simp [Activation, h1]
    refine ⟨hact, fun h3 hk => ?_⟩
    unfold AdaptiveActivation.make
    simp only [h3, hk, if_true, if_pos]
    exact ⟨_, rfl, by
      rw [hact]
      unfold AdaptiveActivation.make
      simp only [h3, hk, if_true, if_pos]
      rfl⟩

/-- C6 witness: `tanh` (dash-free, registered) returns the registry function;
`x-y` (dashed) is delegated to the `AdaptiveActivation` constructor. -/
theorem C6_witness :
    Activation "tanh" = Except.ok (ActivationResult.registry (ACTS_fun "tanh")) ∧
    Activation "x-y" = (AdaptiveActivation.make "x-y").map ActivationResult.adaptive := by
  have h1 := C6_dispatch "tanh"
  have h2 := C6_dispatch "x-y"
  exact ⟨(h1.1 (by decide)).1 (by decide), (h2.2 (by decide)).1⟩

/-! ## Numpy slicing on the last axis (`misc.py`, `VerticalGradient.gradient`) -/

/-- Normalizes one bound of a Python slice for an axis of size `n`: negative
indices count from the end, then both are clamped to `[0, n]`. -/
def sliceNorm (n : ℕ) (i : ℤ) : ℕ :=
  if i < 0 then (max ((n : ℤ) + i) 0).toNat else min i.toNat n

/-- Models the Python slice `l[a:b]` (step 1). -/
def pySlice {α : Type} (l : List α) (a b : ℤ) : List α :=
  (l.drop (sliceNorm l.length a)).take (sliceNorm l.length b - sliceNorm l.length a)

/-- Models `VerticalGradient.gradient` on one row of `X`:
`np.concatenate([np.zeros_like(X[..., :-1]), np.full_like(X[..., -2:-1], a)], axis=-1)`. -/
noncomputable def VerticalGradient.gradientRow (a : ℝ) (r : List ℝ) : List ℝ :=
  (pySlice r 0 (-1)).map (fun _ => (0 : ℝ)) ++ (pySlice r (-2) (-1)).map (fun _ => a)

/-- Models `VerticalGradient.gradient` on a whole batch (rowwise). -/
noncomputable def VerticalGradient.gradient (a : ℝ) (X : List (List ℝ)) : List (List ℝ) :=
  X.map (VerticalGradient.gradientRow a)

/-! ## Claim C9 -/

/-- C9 counterexample: in the one-dimensional case the gradient of the
vertical-gradient model is the empty row (`X[..., -2:-1]` is an empty slice of
a length-1 axis), not the single-component vector `[a]`. -/
theorem C9_counterexample :
    VerticalGradient.gradientRow (3 : ℝ) [(5 : ℝ)] = [] ∧
    VerticalGradient.gradientRow (3 : ℝ) [(5 : ℝ)] ≠ [(3 : ℝ)] := by
  constructor
  · rfl
  · rw [show VerticalGradient.gradientRow (3 : ℝ) [(5 : ℝ)] = [] from rfl]
    simp

/-- C9 amended: for every row of length `dim ≥ 2` the vertical-gradient
model's gradient row has the same length as the input row and is zero in every
coordinate except the last, which equals the gradient coefficient `a`; for a
row of length 1 the result is the empty row (the slice `[-2:-1]` of a length-1
axis is empty), not `[a]`. -/
theorem C9_gradient_shape (a : ℝ) (r : List ℝ) :
    (2 ≤ r.length →
      VerticalGradient.gradientRow a r = List.replicate (r.length - 1) 0 ++ [a]) ∧
    (r.length = 1 → VerticalGradient.gradientRow a r = []) := by
  constructor
  · intro h2
    unfold VerticalGradient.gradientRow pySlice sliceNorm
    have hn1 : (max ((r.length : ℤ) + (-1)) 0).toNat = r.length - 1 := by omega
    have hn2 : (max ((r.length : ℤ) + (-2)) 0).toNat = r.length - 2 := by omega
    norm_num [hn1, hn2]
    rw [show r.length - 1 - (r.length - 2) = 1 from by omega]
    simp
  · intro h1
    unfold VerticalGradient.gradientRow pySlice sliceNorm
    rw [h1]
    norm_num

/-- C9 witness: on the row `[1, 2]` with coefficient `7` the gradient row is
`[0, 7]`. -/
theorem C9_witness :
    VerticalGradient.gradientRow (7 : ℝ) [1, 2] = List.replicate 1 0 ++ [(7 : ℝ)] :=
  (C9_gradient_shape 7 [1, 2]).1 (by simp)

/-! ## VerticalGradient analytic travel time (`misc.py`, lines 127–135) -/

/-- Models `np.arccosh` on its domain `x ≥ 1` via the standard formula
`arccosh(x) = log(x + sqrt(x^2 - 1))`. -/
noncomputable def npArccosh (x : ℝ) : ℝ := Real.log (x + Real.sqrt (x ^ 2 - 1))

/-- Velocity value of the vertical-gradient model at one point (the pure part
of `VerticalGradient.__call__`): `v0 + a * z` with `z` the last coordinate. -/
noncomputable def VerticalGradient.V (v0 a : ℝ) (r : List ℝ) : ℝ :=
  v0 + a * r.getLastD 0

/-- Models `VerticalGradient.time` on one row of `X`:
`Xdiff = X - xs`, `Vxszs = self(xs)`, `up = a**2 * (Xdiff**2).sum(axis=-1)`,
`down = 2 * Vxszs * (a * Xdiff[...,-1] + Vxszs)`,
`tau = np.arccosh(up / down + 1) / a`. -/
noncomputable def VerticalGradient.timeRow (v0 a : ℝ) (xs r : List ℝ) : ℝ :=
  let Xdiff := List.zipWith (fun x y => x - y) r xs
  let Vxszs := VerticalGradient.V v0 a xs
  let up := a ^ 2 * (Xdiff.map (fun d => d ^ 2)).sum
  let down := 2 * Vxszs * (a * Xdiff.getLastD 0 + Vxszs)
  npArccosh (up / down + 1) / a

/-- The elementwise difference of a row with itself is a row of zeros. -/
theorem zipWith_sub_self (l : List ℝ) :
    List.zipWith (fun x y => x - y) l l = List.replicate l.length 0 := by
  induction l with
  | nil => rfl
  | cons x t ih =>
      simp only [List.zipWith_cons_cons, ih, List.length_cons, sub_self]
      rfl

/-- The last element of a constant-zero row (with default 0) is 0. -/
theorem getLastD_replicate_zero (n : ℕ) :
    (List.replicate n (0 : ℝ)).getLastD 0 = 0 := by
  cases n with
  | zero => rfl
  | succ m =>
      rw [List.getLastD_eq_getLast?]
      rw [List.getLast?_replicate]
      simp

/-! ## Claim C10 -/

/-- C10: for the vertical-gradient model with positive gradient coefficient
and positive source velocity, the analytic travel-time query evaluated at a
batch whose every row equals the source point `xs` returns exactly zero for
every row: the `up` numerator vanishes, so `arccosh(0/down + 1) = arccosh(1)
= 0`, with the arccosh argument exactly 1 (no domain error). -/
theorem C10_time_at_source (v0 a : ℝ) (xs : List ℝ) (X : List (List ℝ))
    (ha : 0 < a) (hV : 0 < VerticalGradient.V v0 a xs)
    (hX : ∀ r ∈ X, r = xs) :
    X.map (VerticalGradient.timeRow v0 a xs) = List.replicate X.length 0 := by
  have hrow : VerticalGradient.timeRow v0 a xs xs = 0 := by
    unfold VerticalGradient.timeRow
    rw [zipWith_sub_self]
    simp only [List.map_replicate, List.sum_replicate, getLastD_replicate_zero]
    norm_num
    left
    unfold npArccosh
    norm_num
  rw [List.eq_replicate_iff]
  refine ⟨by simp, ?_⟩
  intro b hb
  rw [List.mem_map] at hb
  obtain ⟨r, hr, hbr⟩ := hb
  rw [hX r hr] at hbr
  rw [← hbr, hrow]

/-- C10 witness: `v0 = 1.5`, `a = 0.5`, source `xs = [0, 2]` (source velocity
`2.5 > 0`), batch of two copies of the source point evaluates to `[0, 0]`. -/
theorem C10_witness :
    List.map (VerticalGradient.timeRow 1.5 0.5 [0, 2]) [[0, 2], [0, 2]]
      = List.replicate 2 0 := by
  apply C10_time_at_source
  · norm_num
  · unfold VerticalGradient.V
    norm_num
  · intro r hr
    simp only [List.mem_cons, List.not_mem_nil, or_false] at hr
    rcases hr with h | h
    · exact h
    · exact h

/-! ## Lazily cached attributes of the analytic models (`misc.py`) -/

/-- Minimum of a numpy array's entries (`arr.min()`), nonempty lists. -/
noncomputable def npMin : List ℝ → ℝ
  | [] => 0
  | x :: xs => xs.foldl min x

/-- Maximum of a numpy array's entries (`arr.max()`), nonempty lists. -/
noncomputable def npMax : List ℝ → ℝ
  | [] => 0
  | x :: xs => xs.foldl max x

/-- Per-coordinate minimum over the rows of a batch, models
`X.reshape(-1, X.shape[-1]).min(axis=0)` for a batch of equal-length rows. -/
noncomputable def colMins (X : List (List ℝ)) : List ℝ :=
  (List.range (X.headD []).length).map (fun i => npMin (X.map (fun r => r.getD i 0)))

/-- Per-coordinate maximum over the rows of a batch, models
`X.reshape(-1, X.shape[-1]).max(axis=0)`. -/
noncomputable def colMaxs (X : List (List ℝ)) : List ℝ :=
  (List.range (X.headD []).length).map (fun i => npMax (X.map (fun r => r.getD i 0)))

/-- Mutable attribute state of a `VerticalGradient` instance: `v0` and `a` are
set at construction; `xmin`/`xmax` are either supplied at construction or
`None`; `min`, `max` and `dim` start as `None` and are filled by the first
value query. -/
structure VGState where
  v0 : ℝ
  a : ℝ
  xmin : Option (List ℝ)
  xmax : Option (List ℝ)
  min : Option ℝ
  max : Option ℝ
  dim : Option ℕ

/-- Models `VerticalGradient.__init__(v0, a, xmin, xmax)`. -/
def VGState.mk0 (v0 a : ℝ) (xmin xmax : Option (List ℝ)) : VGState :=
  { v0 := v0, a := a, xmin := xmin, xmax := xmax, min := none, max := none, dim := none }

/-- Models `VerticalGradient.__call__(X)`: returns the velocity values and the
instance state after the call, filling each `None` attribute from this batch
(`dim` is `X.shape[-1]`, here the width of the first row). -/
noncomputable def VGState.call (s : VGState) (X : List (List ℝ)) :
    List ℝ × VGState :=
  let V := X.map (VerticalGradient.V s.v0 s.a)
  (V,
   { s with
     xmin := match s.xmin with | some v => some v | none => some (colMins X)
     xmax := match s.xmax with | some v => some v | none => some (colMaxs X)
     dim := match s.dim with | some d => some d | none => some (X.headD []).length
     min := match s.min with | some m => some m | none => some (npMin V)
     max := match s.max with | some m => some m | none => some (npMax V) })

/-- Mutable attribute state of a `LocAnomaly` instance: everything except the
domain bounds is fixed at construction; `xmin`/`xmax` are either supplied or
`None` and are filled by the first value query. -/
structure LAState where
  vmin : ℝ
  vmax : ℝ
  mus : List ℝ
  sigmas : List ℝ
  xmin : Option (List ℝ)
  xmax : Option (List ℝ)
  min : ℝ
  max : ℝ
  dim : ℕ

/-- Models `LocAnomaly.__init__(vmin, vmax, mus, sigmas, xmin, xmax)`:
`min`/`max` are fixed to `min(vmin, vmax)`/`max(vmin, vmax)` and `dim` to
`len(mus)` at construction. -/
noncomputable def LAState.mk0 (vmin vmax : ℝ) (mus sigmas : List ℝ)
    (xmin xmax : Option (List ℝ)) : LAState :=
  { vmin := vmin, vmax := vmax, mus := mus, sigmas := sigmas,
    xmin := xmin, xmax := xmax,
    min := Min.min vmin vmax, max := Max.max vmin vmax, dim := mus.length }

/-- Velocity value of the Gaussian-anomaly model at one row:
`(vmax - vmin) * exp(-((X - mus)**2 / 2 / sigmas**2).sum(-1)) + vmin`. -/
noncomputable def LAState.Vrow (s : LAState) (r : List ℝ) : ℝ :=
  (s.vmax - s.vmin) *
    Real.exp (-(((r.zip s.mus).zip s.sigmas).map
      (fun p => (p.1.1 - p.1.2) ^ 2 / 2 / p.2 ^ 2)).sum) + s.vmin

/-- Models `LocAnomaly.__call__(X)`: returns the velocity values and the
instance state after the call, filling `xmin`/`xmax` from this batch when they
are `None`. -/
noncomputable def LAState.call (s : LAState) (X : List (List ℝ)) :
    List ℝ × LAState :=
  (X.map s.Vrow,
   { s with
     xmin := match s.xmin with | some v => some v | none => some (colMins X)
     xmax := match s.xmax with | some v => some v | none => some (colMaxs X) })

/-! ## Claim C7 -/

/-- C7: for both analytic velocity models, the first value query fills exactly
the attributes that are still unset — an attribute supplied at construction
keeps its constructed value (`Option.getD` keeps the `some`), an unset one is
computed from the first batch — and every subsequent value query leaves the
whole attribute state unchanged, so all cached attributes reflect the first
batch only. -/
theorem C7_lazy_bound_caching :
    (∀ (s : VGState) (X Y : List (List ℝ)),
      (s.call X).2 =
        { s with
          xmin := some (s.xmin.getD (colMins X))
          xmax := some (s.xmax.getD (colMaxs X))
          dim := some (s.dim.getD (X.headD []).length)
          min := some (s.min.getD (npMin (X.map (VerticalGradient.V s.v0 s.a))))
          max := some (s.max.getD (npMax (X.map (VerticalGradient.V s.v0 s.a)))) } ∧
      ((s.call X).2.call Y).2 = (s.call X).2) ∧
    (∀ (s : LAState) (X Y : List (List ℝ)),
      (s.call X).2 =
        { s with
          xmin := some (s.xmin.getD (colMins X))
          xmax := some (s.xmax.getD (colMaxs X)) } ∧
      ((s.call X).2.call Y).2 = (s.call X).2) := by
  constructor
  · intro s X Y
    constructor
    · unfold VGState.call
      cases s.xmin <;> cases s.xmax <;> cases s.min <;> cases s.max <;> cases s.dim <;> rfl
    · unfold VGState.call
      cases s.xmin <;> cases s.xmax <;> cases s.min <;> cases s.max <;> cases s.dim <;> rfl
  · intro s X Y
    constructor
    · unfold LAState.call
      cases s.xmin <;> cases s.xmax <;> rfl
    · unfold LAState.call
      cases s.xmin <;> cases s.xmax <;> rfl

/-! ## Grid Interpolator memoization (`misc.py`, `Interpolator`) -/

/-- Attribute state of an `Interpolator` instance. The numeric engines are
abstracted: `Field` stands for a numpy grid array, `Axes` for the tuple of
axis arrays, `Q` for a query-point array and `Ans` for interpolated values.
`dF`/`dFunc`/`LFunc` start as `None` and are populated at most once. -/
structure InterpState (Field Axes Q Ans : Type) where
  F : Field
  axes : Axes
  dF : Option Field
  dFunc : Option (Q → Ans)
  LFunc : Option (Q → Ans)

/-- Models `Interpolator.__init__(F, *axes)` (the value interpolator `Func`
and the scalar bounds are irrelevant to the derivative caching). -/
def InterpState.mk0 {Field Axes Q Ans : Type} (F : Field) (axes : Axes) :
    InterpState Field Axes Q Ans :=
  { F := F, axes := axes, dF := none, dFunc := none, LFunc := none }

/-- Models `Interpolator.gradient(X)` for an abstract finite-difference
operator `gradF` (for `np.stack(np.gradient(F, *axes), -1)`) and interpolator
factory `RGI` (for `RegularGridInterpolator`): on first call computes and
caches `dF` and `dFunc`, afterwards reuses the cache. -/
def InterpState.gradient {Field Axes Q Ans : Type}
    (gradF : Field → Axes → Field) (RGI : Axes → Field → (Q → Ans))
    (s : InterpState Field Axes Q Ans) (X : Q) : Ans × InterpState Field Axes Q Ans :=
  match s.dFunc with
  | some f => (f X, s)
  | none =>
      let dF := gradF s.F s.axes
      let f := RGI s.axes dF
      (f X, { s with dF := some dF, dFunc := some f })

/-- Models `Interpolator.laplacian(X)`: ensures the gradient field exists
(computing and caching it if needed, exactly as `gradient` does), then on
first need computes the Laplacian field from the cached `dF` via the abstract
operator `lapOf` (for the summed per-axis `np.gradient` second derivatives),
caches its interpolator, and evaluates it. -/
def InterpState.laplacian {Field Axes Q Ans : Type}
    (gradF : Field → Axes → Field) (lapOf : Field → Axes → Field)
    (RGI : Axes → Field → (Q → Ans))
    (s : InterpState Field Axes Q Ans) (X : Q) : Ans × InterpState Field Axes Q Ans :=
  let step1 : Field × InterpState Field Axes Q Ans :=
    match s.dFunc, s.dF with
    | some _, some d => (d, s)
    | _, _ =>
        let d := gradF s.F s.axes
        (d, { s with dF := some d, dFunc := some (RGI s.axes d) })
  match step1.2.LFunc with
  | some g => (g X, step1.2)
  | none =>
      let L := lapOf step1.1 step1.2.axes
      let g := RGI step1.2.axes L
      (g X, { step1.2 with LFunc := some g })

/-! ## Claim C8 -/

/-- C8: the derived gradient and Laplacian interpolators are computed at most
once — a second gradient (resp. Laplacian) query leaves the state unchanged —
and a repeated query with the same points returns the identical result even if
the stored field `F` and axes are overwritten between the two calls, for every
choice of the underlying finite-difference and interpolation engines. -/
theorem C8_memoized_queries {Field Axes Q Ans : Type}
    (gradF : Field → Axes → Field) (lapOf : Field → Axes → Field)
    (RGI : Axes → Field → (Q → Ans))
    (s : InterpState Field Axes Q Ans) (X : Q) (F2 : Field) (A2 : Axes) :
    (((InterpState.gradient gradF RGI s X).2.gradient gradF RGI X).2
        = (InterpState.gradient gradF RGI s X).2) ∧
    ((InterpState.gradient gradF RGI
        { (InterpState.gradient gradF RGI s X).2 with F := F2, axes := A2 } X).1
        = (InterpState.gradient gradF RGI s X).1) ∧
    (((InterpState.laplacian gradF lapOf RGI s X).2.laplacian gradF lapOf RGI X).2
        = (InterpState.laplacian gradF lapOf RGI s X).2) ∧
    ((InterpState.laplacian gradF lapOf RGI
        { (InterpState.laplacian gradF lapOf RGI s X).2 with F := F2, axes := A2 } X).1
        = (InterpState.laplacian gradF lapOf RGI s X).1) := by
  obtain ⟨F, axes, dF, dFunc, LFunc⟩ := s
  refine ⟨?_, ?_, ?_, ?_⟩ <;>
    cases dFunc <;> cases dF <;> cases LFunc <;>
      simp [InterpState.gradient, InterpState.laplacian]

/-! ## Gradient-biased point sampler (`misc.py`, `GradientBased_PDF`) -/

/-- Models `np.linspace(a, b, n)` (endpoint included; the single-point grid
is `[a]`, otherwise the evenly spaced values with step `(b - a)/(n - 1)`). -/
noncomputable def linspace (a b : ℝ) (n : ℕ) : List ℝ :=
  if n = 1 then [a]
  else (List.range n).map (fun i : ℕ => a + (b - a) * (i : ℝ) / ((n : ℝ) - 1))

/-- Rows of the flattened `ij`-ordered meshgrid over the given axes: models
`np.stack(np.meshgrid(*xi, indexing='ij'), -1).reshape(-1, dim)` (the first
axis varies slowest). -/
noncomputable def cartesianRows : List (List ℝ) → List (List ℝ)
  | [] => [[]]
  | ax :: rest => ax.flatMap (fun x => (cartesianRows rest).map (fun r => x :: r))

/-- Euclidean norm of a row, models `np.linalg.norm(dv, axis=-1)` per row. -/
noncomputable def rowNorm (r : List ℝ) : ℝ := Real.sqrt ((r.map (fun x => x ^ 2)).sum)

/-- Models `int(np.sqrt(num_pts * regular))`: truncation of the nonnegative
square root, i.e. the floor. -/
noncomputable def regNum (numPts : ℕ) (regular : ℝ) : ℕ :=
  (⌊Real.sqrt ((numPts : ℝ) * regular)⌋).toNat

/-- State of a `GradientBased_PDF` instance: the per-axis `(xmin, xmax)` pairs
(rows of `np.array([xmins, xmaxs]).T`) and the model's gradient function. -/
structure GradientBasedPDF where
  limits : List (ℝ × ℝ)
  gradFunc : List ℝ → List ℝ

/-- Models `GradientBased_PDF.__call__(num_pts, regular, random_base)`.
Randomness is supplied explicitly: `pool` stands for the
`np.random.uniform(size=(random_base, dim))` candidate draw and `choice k p`
for `np.random.choice(random_base, k, p=p, replace=False)` (a list of `k`
indices into the pool), consulted only on argument combinations that
`np.random.choice` accepts. That call validates its inputs and raises
`ValueError` for: a negative sample size; invalid probabilities — when the
importance weights sum to zero, `dv /= dv.sum()` is `0/0`, i.e. `NaN`, in
every entry (this also covers an empty pool, whose mean is already `NaN`);
and a `replace=False` sample larger than the population (with a nonzero
weight sum every normalized probability is strictly positive, the weights
being nonnegative norms shifted by their positive mean, so feasibility is
exactly `rand_num <= random_base`). The square in
`rand_num = num_pts - reg_num**2` is the hard-coded exponent of the source. -/
noncomputable def GradientBasedPDF.call (g : GradientBasedPDF)
    (pool : List (List ℝ)) (choice : ℕ → List ℝ → List ℕ)
    (numPts : ℕ) (regular : ℝ) : Except String (List (List ℝ)) :=
  let rn := regNum numPts regular
  let xreg := cartesianRows (g.limits.map (fun li => linspace li.1 li.2 rn))
  let randNum : ℤ := (numPts : ℤ) - (rn : ℤ) ^ 2
  let dv0 := pool.map (fun x => rowNorm (g.gradFunc x))
  let dv1 := dv0.map (fun w => w + (dv0.sum / dv0.length))
  let dv := dv1.map (fun w => w / dv1.sum)
  if randNum < 0 then Except.error "ValueError"
  else if dv1.sum = 0 then Except.error "ValueError"
  else if (pool.length : ℤ) < randNum then Except.error "ValueError"
  else
    let ids := choice randNum.toNat dv
    let xrand := ids.map (fun i => pool.getD i [])
    Except.ok (xreg ++ xrand)

/-- Length of `linspace` is its requested count. -/
theorem linspace_length (a b : ℝ) (n : ℕ) : (linspace a b n).length = n := by
  by_cases h : n = 1
  · simp [linspace, h]
  · unfold linspace
    rw [if_neg h]
    rw [List.length_map, List.length_range]

/-- Length of a `flatMap` whose pieces all have the same length. -/
theorem length_flatMap_const {α β : Type} (l : List α) (f : α → List β) (k : ℕ)
    (h : ∀ x ∈ l, (f x).length = k) : (l.flatMap f).length = l.length * k := by
  induction l with
  | nil => simp
  | cons x t ih =>
      rw [List.flatMap_cons, List.length_append, h x (by simp),
        ih (fun y hy => h y (by simp [hy])), List.length_cons]
      ring

/-- The flattened meshgrid has one row per element of the Cartesian product:
its length is the product of the axis lengths. -/
theorem cartesianRows_length (L : List (List ℝ)) :
    (cartesianRows L).length = (L.map List.length).prod := by
  induction L with
  | nil => rfl
  | cons ax rest ih =>
      unfold cartesianRows
      rw [length_flatMap_const ax _ (cartesianRows rest).length (by simp)]
      simp [ih]

/-- Evaluates `regNum` once the product `num_pts * regular` is bracketed
between consecutive squares. -/
theorem regNum_eq (numPts : ℕ) (regular : ℝ) (k : ℕ)
    (h1 : ((k : ℝ)) ^ 2 ≤ (numPts : ℝ) * regular)
    (h2 : (numPts : ℝ) * regular < ((k : ℝ) + 1) ^ 2) :
    regNum numPts regular = k := by
  unfold regNum
  have hfl : ⌊Real.sqrt ((numPts : ℝ) * regular)⌋ = (k : ℤ) := by
    rw [Int.floor_eq_iff]
    constructor
    · push_cast
      rw [Real.le_sqrt (by positivity) (le_trans (by positivity) h1)]
      exact h1
    · push_cast
      rw [Real.sqrt_lt' (by positivity)]
      exact h2
  rw [hfl]
  simp

/-- Sum of a list shifted by a constant. -/
theorem sum_map_add_const (l : List ℝ) (c : ℝ) :
    (l.map (fun w => w + c)).sum = l.sum + l.length * c := by
  induction l with
  | nil => simp
  | cons x t ih =>
      simp only [List.map_cons, List.sum_cons, ih, List.length_cons]
      push_cast
      ring

/-- Point count of a gradient-biased sampler call: `reg_num^dim` grid rows
followed by `num_pts - reg_num**2` importance-sampled rows (the exponent of
the residual is the hard-coded square of the source, whatever the
dimensionality), provided `np.random.choice` accepts the draw: the residual
is nonnegative, some candidate has a nonzero gradient norm (else the
normalized probabilities are NaN), and the pool covers the residual. -/
theorem gradientBased_call_length (g : GradientBasedPDF) (pool : List (List ℝ))
    (choice : ℕ → List ℝ → List ℕ) (numPts : ℕ) (regular : ℝ)
    (hchoice : ∀ k p, (choice k p).length = k)
    (hpos : (regNum numPts regular) ^ 2 ≤ numPts)
    (hsum : 0 < (pool.map (fun x => rowNorm (g.gradFunc x))).sum)
    (hpool : numPts - (regNum numPts regular) ^ 2 ≤ pool.length) :
    (g.call pool choice numPts regular).map List.length
      = Except.ok ((regNum numPts regular) ^ g.limits.length
          + (numPts - (regNum numPts regular) ^ 2)) := by
  unfold GradientBasedPDF.call
  have hsq : ((regNum numPts regular : ℕ) : ℤ) ^ 2
      = ((regNum numPts regular ^ 2 : ℕ) : ℤ) := by push_cast; ring
  have hnn : ¬ ((numPts : ℤ) - ((regNum numPts regular : ℕ) : ℤ) ^ 2 < 0) := by
    rw [not_lt, sub_nonneg, hsq]
    exact_mod_cast hpos
  have hlen : (pool.map (fun x => rowNorm (g.gradFunc x))).length ≠ 0 := by
    intro h0
    rw [List.length_eq_zero] at h0
    rw [h0] at hsum
    simp at hsum
  have hd1 : ((pool.map (fun x => rowNorm (g.gradFunc x))).map
      (fun w => w + ((pool.map (fun x => rowNorm (g.gradFunc x))).sum
        / ((pool.map (fun x => rowNorm (g.gradFunc x))).length : ℝ)))).sum
      = 2 * (pool.map (fun x => rowNorm (g.gradFunc x))).sum := by
    rw [sum_map_add_const, List.length_map]
    have hplen : ((pool.length : ℕ) : ℝ) ≠ 0 := by
      rw [List.length_map] at hlen
      exact Nat.cast_ne_zero.mpr hlen
    rw [← mul_div_assoc, mul_div_cancel_left₀ _ hplen]
    ring
  have hne : ¬ (((pool.map (fun x => rowNorm (g.gradFunc x))).map
      (fun w => w + ((pool.map (fun x => rowNorm (g.gradFunc x))).sum
        / ((pool.map (fun x => rowNorm (g.gradFunc x))).length : ℝ)))).sum = 0) := by
    rw [hd1]
    have h2 : (0 : ℝ) < 2 * (pool.map (fun x => rowNorm (g.gradFunc x))).sum := by
      linarith
    exact ne_of_gt h2
  have hpl : ¬ ((pool.length : ℤ) < (numPts : ℤ) - ((regNum numPts regular : ℕ) : ℤ) ^ 2) := by
    rw [not_lt, hsq]
    omega
  rw [if_neg hnn, if_neg hne, if_neg hpl]
  show Except.ok ((cartesianRows _ ++ _).length) = _
  congr 1
  rw [List.length_append]
  congr 1
  · rw [cartesianRows_length, List.map_map]
    have hmap : (g.limits.map (List.length ∘ fun li => linspace li.1 li.2 (regNum numPts regular)))
        = List.replicate g.limits.length (regNum numPts regular) := by
      rw [List.eq_replicate_iff]
      refine ⟨by simp, ?_⟩
      intro b hb
      rw [List.mem_map] at hb
      obtain ⟨li, hli, hbl⟩ := hb
      rw [← hbl]
      exact linspace_length _ _ _
    rw [hmap, List.prod_replicate]
  · rw [List.length_map, hchoice, hsq]
    omega

/-! ## Claim C2 -/

/-- A three-dimensional gradient-biased sampler over the unit cube whose
gradient operation is the rowwise gradient of a vertical-gradient velocity
model with coefficient `a = 1`: every candidate has gradient `[0, 0, 1]`, so
every importance weight is 1 and `np.random.choice` accepts the draw. -/
noncomputable def gb3 : GradientBasedPDF :=
  { limits := [(0, 1), (0, 1), (0, 1)], gradFunc := VerticalGradient.gradientRow 1 }

/-- A two-dimensional gradient-biased sampler over the unit square, with the
gradient of a vertical-gradient model with `a = 1` (every gradient `[0, 1]`,
every importance weight 1). -/
noncomputable def gb2 : GradientBasedPDF :=
  { limits := [(0, 1), (0, 1)], gradFunc := VerticalGradient.gradientRow 1 }

/-- Deterministic stand-in for `np.random.choice`: the first `k` pool ids. -/
def choiceFirst (k : ℕ) (_ : List ℝ) : List ℕ := List.range k

/-- A candidate pool of `random_base = 20000` three-dimensional points. -/
noncomputable def pool3 : List (List ℝ) := List.replicate 20000 [0, 0, 0]

/-- A candidate pool of `random_base = 20000` two-dimensional points. -/
noncomputable def pool2 : List (List ℝ) := List.replicate 20000 [0, 0]

/-- C2 counterexample: with `dim = 3`, `num_pts = 1000`, `regular = 1/100` we
get `reg_num = floor(sqrt(10)) = 3` and `num_pts - reg_num^dim = 973 > 0`, so
the claim's hypothesis holds, yet the sampler returns `3^3 + (1000 - 3^2) =
1018` points — the residual uses the hard-coded square — not `1000`. -/
theorem C2_counterexample :
    regNum 1000 (1 / 100) = 3 ∧ 0 < 1000 - 3 ^ 3 ∧
    (gb3.call pool3 choiceFirst 1000 (1 / 100)).map List.length
      = Except.ok 1018 ∧ (1018 : ℕ) ≠ 1000 := by
  have hr : regNum 1000 (1 / 100) = 3 := by
    apply regNum_eq <;> norm_num
  have hd0 : pool3.map (fun x => rowNorm (gb3.gradFunc x)) = List.replicate 20000 1 := by
    unfold pool3
    simp only [List.map_replicate]
    rw [show gb3.gradFunc [0, 0, 0] = [0, 0, 1] from rfl]
    rw [show rowNorm [0, 0, 1] = 1 from by unfold rowNorm; norm_num]
  have hsum3 : 0 < (pool3.map (fun x => rowNorm (gb3.gradFunc x))).sum := by
    rw [hd0, List.sum_replicate, nsmul_eq_mul]
    norm_num
  have hpool3 : 1000 - (regNum 1000 (1 / 100)) ^ 2 ≤ pool3.length := by
    rw [hr]
    unfold pool3
    rw [List.length_replicate]
    norm_num
  refine ⟨hr, by norm_num, ?_, by norm_num⟩
  rw [gradientBased_call_length gb3 pool3 choiceFirst 1000 (1 / 100)
    (fun k p => by simp [choiceFirst]) (by rw [hr]; norm_num) hsum3 hpool3]
  rw [hr]
  norm_num [gb3]

/-- C2 amended: a gradient-biased sampler call with total budget `num_pts`,
regular fraction `regular` and dimensionality `dim = len(limits)` draws
`rand_num = num_pts - reg_num^2` importance-sampled points (the exponent 2 is
hard-coded, independent of `dim`), so the returned point set has exactly
`reg_num^dim + (num_pts - reg_num^2)` rows, where
`reg_num = floor(sqrt(num_pts * regular))`; this equals `num_pts` when
`dim = 2`, but not for other dimensionalities in general. The side conditions
are the ones `np.random.choice` needs to accept the draw: a nonnegative
residual, some candidate with a nonzero gradient norm (a zero total weight
would make the normalized probabilities NaN and raise ValueError), and a pool
at least as large as the residual. -/
theorem C2_total_points (g : GradientBasedPDF) (pool : List (List ℝ))
    (choice : ℕ → List ℝ → List ℕ) (numPts : ℕ) (regular : ℝ)
    (hchoice : ∀ k p, (choice k p).length = k)
    (hpos : (regNum numPts regular) ^ 2 ≤ numPts)
    (hsum : 0 < (pool.map (fun x => rowNorm (g.gradFunc x))).sum)
    (hpool : numPts - (regNum numPts regular) ^ 2 ≤ pool.length) :
    (g.call pool choice numPts regular).map List.length
      = Except.ok ((regNum numPts regular) ^ g.limits.length
          + (numPts - (regNum numPts regular) ^ 2)) :=
  gradientBased_call_length g pool choice numPts regular hchoice hpos hsum hpool

/-- C2 witness: in the two-dimensional benchmark configuration
`num_pts = 1000`, `regular = 0.7`, we get `reg_num = 26` and the sampler
returns `26^2 + (1000 - 676) = 1000` points. -/
theorem C2_witness :
    (gb2.call pool2 choiceFirst 1000 (7 / 10)).map List.length
      = Except.ok 1000 := by
  have hr : regNum 1000 (7 / 10) = 26 := by
    apply regNum_eq <;> norm_num
  have hd0 : pool2.map (fun x => rowNorm (gb2.gradFunc x)) = List.replicate 20000 1 := by
    unfold pool2
    simp only [List.map_replicate]
    rw [show gb2.gradFunc [0, 0] = [0, 1] from rfl]
    rw [show rowNorm [0, 1] = 1 from by unfold rowNorm; norm_num]
  have hsum2 : 0 < (pool2.map (fun x => rowNorm (gb2.gradFunc x))).sum := by
    rw [hd0, List.sum_replicate, nsmul_eq_mul]
    norm_num
  have hpool2 : 1000 - (regNum 1000 (7 / 10)) ^ 2 ≤ pool2.length := by
    rw [hr]
    unfold pool2
    rw [List.length_replicate]
    norm_num
  rw [C2_total_points gb2 pool2 choiceFirst 1000 (7 / 10)
    (fun k p => by simp [choiceFirst]) (by rw [hr]; norm_num) hsum2 hpool2]
  rw [hr]
  norm_num [gb2]

/-! ## Gaussian-anomaly value and gradient (`misc.py`, `LocAnomaly`) -/

/-- Pointwise value of `LocAnomaly.__call__` on a `d`-dimensional point:
`(vmax - vmin) * exp(-((X - mus)**2 / 2 / sigmas**2).sum(-1)) + vmin`. -/
noncomputable def locAnomalyV {d : ℕ} (vmin vmax : ℝ) (mus sigmas X : Fin d → ℝ) : ℝ :=
  (vmax - vmin) * Real.exp (-(∑ j, (X j - mus j) ^ 2 / 2 / sigmas j ^ 2)) + vmin

/-- Coordinate `i` of `LocAnomaly.gradient`:
`(self(X) - vmin) * (mus - X) / sigmas` — note the single power of `sigmas`. -/
noncomputable def locAnomalyGrad {d : ℕ} (vmin vmax : ℝ) (mus sigmas X : Fin d → ℝ)
    (i : Fin d) : ℝ :=
  (locAnomalyV vmin vmax mus sigmas X - vmin) * (mus i - X i) / sigmas i

/-- The sum in the Gaussian exponent splits into the `i`-th term plus the rest. -/
theorem locAnomaly_sum_split {d : ℕ} (mus sigmas X : Fin d → ℝ) (i : Fin d) :
    (∑ j, (X j - mus j) ^ 2 / 2 / sigmas j ^ 2)
      = (X i - mus i) ^ 2 / 2 / sigmas i ^ 2
        + ∑ j ∈ Finset.univ.erase i, (X j - mus j) ^ 2 / 2 / sigmas j ^ 2 := by
  rw [← Finset.add_sum_erase Finset.univ
    (fun j => (X j - mus j) ^ 2 / 2 / sigmas j ^ 2) (Finset.mem_univ i)]

/-- Exact partial derivative of the Gaussian-anomaly velocity value with
respect to coordinate `i`: it carries the square `sigmas i ^ 2` in the
denominator. -/
theorem locAnomalyV_hasDerivAt {d : ℕ} (vmin vmax : ℝ) (mus sigmas X : Fin d → ℝ)
    (i : Fin d) :
    HasDerivAt (fun t => locAnomalyV vmin vmax mus sigmas (Function.update X i t))
      ((locAnomalyV vmin vmax mus sigmas X - vmin) * (mus i - X i) / sigmas i ^ 2)
      (X i) := by
  have hfun : (fun t => locAnomalyV vmin vmax mus sigmas (Function.update X i t))
      = fun t => (vmax - vmin) * Real.exp (-((t - mus i) ^ 2 / 2 / sigmas i ^ 2
          + ∑ j ∈ Finset.univ.erase i, (X j - mus j) ^ 2 / 2 / sigmas j ^ 2)) + vmin := by
    funext t
    unfold locAnomalyV
    have hsum : (∑ j, (Function.update X i t j - mus j) ^ 2 / 2 / sigmas j ^ 2)
        = (t - mus i) ^ 2 / 2 / sigmas i ^ 2
          + ∑ j ∈ Finset.univ.erase i, (X j - mus j) ^ 2 / 2 / sigmas j ^ 2 := by
      rw [← Finset.add_sum_erase Finset.univ
        (fun j => (Function.update X i t j - mus j) ^ 2 / 2 / sigmas j ^ 2)
        (Finset.mem_univ i)]
      congr 1
      · rw [Function.update_same]
      · apply Finset.sum_congr rfl
        intro j hj
        rw [Function.update_noteq (Finset.mem_erase.mp hj).1]
    rw [hsum]
  rw [hfun]
  have h1 : HasDerivAt (fun t : ℝ => (t - mus i) ^ 2 / 2 / sigmas i ^ 2
      + ∑ j ∈ Finset.univ.erase i, (X j - mus j) ^ 2 / 2 / sigmas j ^ 2)
      ((2 : ℝ) * (X i - mus i) ^ 1 * 1 / 2 / sigmas i ^ 2) (X i) := by
    have hd := (((hasDerivAt_id (X i)).sub_const (mus i)).pow 2).div_const 2
    exact (hd.div_const (sigmas i ^ 2)).add_const _
  have h2 := ((h1.neg.exp).const_mul (vmax - vmin)).add_const vmin
  convert h2 using 1
  have hV : locAnomalyV vmin vmax mus sigmas X - vmin
      = (vmax - vmin) * Real.exp (-((X i - mus i) ^ 2 / 2 / sigmas i ^ 2
          + ∑ j ∈ Finset.univ.erase i, (X j - mus j) ^ 2 / 2 / sigmas j ^ 2)) := by
    unfold locAnomalyV
    rw [locAnomaly_sum_split mus sigmas X i]
    ring
  rw [hV]
  ring

/-! ## Claim C3 -/

/-- Center of the one-dimensional counterexample anomaly. -/
noncomputable def mus1 : Fin 1 → ℝ := fun _ => 0

/-- Width `2` of the one-dimensional counterexample anomaly. -/
noncomputable def sigmas1 : Fin 1 → ℝ := fun _ => 2

/-- Query point `2` of the one-dimensional counterexample. -/
noncomputable def X1 : Fin 1 → ℝ := fun _ => 2

/-- C3 counterexample: with `vmin = 0`, `vmax = 1`, `mus = [0]`,
`sigmas = [2]` and query point `X = [2]`, the value returned by the gradient
query is not the derivative of the value query at `X`: the code divides by
`sigmas`, the true derivative divides by `sigmas^2`. -/
theorem C3_counterexample :
    ¬ HasDerivAt (fun t => locAnomalyV 0 1 mus1 sigmas1 (Function.update X1 0 t))
        (locAnomalyGrad 0 1 mus1 sigmas1 X1 0) (X1 0) := by
  intro h
  have htrue := locAnomalyV_hasDerivAt 0 1 mus1 sigmas1 X1 0
  have heq := h.unique htrue
  have hE : 0 < locAnomalyV 0 1 mus1 sigmas1 X1 := by
    unfold locAnomalyV
    positivity
  unfold locAnomalyGrad at heq
  rw [show mus1 0 = 0 from rfl, show X1 0 = 2 from rfl,
    show sigmas1 0 = 2 from rfl] at heq
  norm_num at heq
  linarith

/-- C3 amended: the Gaussian-anomaly gradient query returns
`(V(X) - vmin) * (mus - X) / sigmas` per coordinate, which is `sigmas i`
times the exact analytic partial derivative
`(V(X) - vmin) * (mus i - X i) / sigmas i ^ 2` of the value query; the two
agree when `sigmas i ^ 2 = sigmas i` (e.g. unit widths), not for every choice
of `sigmas`. -/
theorem C3_gradient_vs_derivative {d : ℕ} (vmin vmax : ℝ)
    (mus sigmas X : Fin d → ℝ) (i : Fin d) (hs : sigmas i ≠ 0) :
    HasDerivAt (fun t => locAnomalyV vmin vmax mus sigmas (Function.update X i t))
      ((locAnomalyV vmin vmax mus sigmas X - vmin) * (mus i - X i) / sigmas i ^ 2)
      (X i) ∧
    locAnomalyGrad vmin vmax mus sigmas X i
      = sigmas i * ((locAnomalyV vmin vmax mus sigmas X - vmin)
          * (mus i - X i) / sigmas i ^ 2) := by
  refine ⟨locAnomalyV_hasDerivAt vmin vmax mus sigmas X i, ?_⟩
  unfold locAnomalyGrad
  field_simp
  ring

/-- C3 witness: in the concrete one-dimensional configuration the returned
gradient equals `sigmas * (true derivative)`. -/
theorem C3_witness :
    locAnomalyGrad 0 1 mus1 sigmas1 X1 0
      = sigmas1 0 * ((locAnomalyV 0 1 mus1 sigmas1 X1 - 0)
          * (mus1 0 - X1 0) / sigmas1 0 ^ 2) :=
  (C3_gradient_vs_derivative 0 1 mus1 sigmas1 X1 0 (by norm_num [sigmas1])).2
